import Mathlib

/-!
Shallow embedding of `src/Base.py` (class `MyAviary`, repository
HimGautam/LearningToFly): a single-drone reinforcement-learning
environment adapter.  The physics engine (pybullet) and the PID
controllers are external collaborators; where the code calls them we
either model their observable interface (URDF body loading and
repositioning, controller construction) or take the collaborator
function as an explicit parameter (the rotation-matrix conversion in
`_computeObs`).
-/

namespace LearningToFly

/-- Action type enumeration, from `class ActionType(Enum)` in Base.py. -/
inductive ActionType
  | RPM
  | DYN
  | THR
  | PID
  | VEL
  | TUN
  | ONE_D_RPM
  | ONE_D_DYN
  | ONE_D_PID
deriving DecidableEq

/-- Observation type enumeration, from `class ObservationType(Enum)` in Base.py. -/
inductive ObservationType
  | KIN
  | RGB
deriving DecidableEq

/-- Drone model enumeration of the external collaborator
(`gym_pybullet_drones.envs.BaseAviary.DroneModel`): the three airframes
`CF2X`, `CF2P` and `HB` referenced by Base.py. -/
inductive DroneModel
  | CF2X
  | CF2P
  | HB
deriving DecidableEq

/-- Python is dynamically typed: any value may be passed where a
`DroneModel` is expected.  `unknown` stands for any value outside the
enumeration, reaching the `else` branch of the construction dispatch. -/
inductive DroneModelPy
  | known (m : DroneModel)
  | unknown
deriving DecidableEq

/-- A Python-level action-type argument: a member of the `ActionType`
enumeration or any other value (reaching the `else` branches). -/
inductive ActPy
  | known (a : ActionType)
  | unknown
deriving DecidableEq

/-- A Python-level observation-type argument. -/
inductive ObsPy
  | known (o : ObservationType)
  | unknown
deriving DecidableEq

/-- What an error branch of the Python code does: call `exit()`
(terminating the process), print an error message and fall through
(continuing execution, typically returning `None`), or no error at all. -/
inductive ErrorBehavior
  | exits
  | printsAndContinues
  | noError
deriving DecidableEq

/-- A controller instance, from the two controller classes imported by
Base.py, each remembering the `drone_model` it was constructed with. -/
inductive Ctrl
  | DSLPIDControl (drone_model : DroneModel)
  | SimplePIDControl (drone_model : DroneModel)
deriving DecidableEq

/-- The action types whose decoding needs a closed-loop controller, from
line 90 of Base.py:
`if act in [ActionType.PID, ActionType.VEL, ActionType.TUN, ActionType.THR, ActionType.ONE_D_PID]`. -/
def ctrlActionTypes : List ActionType :=
  [.PID, .VEL, .TUN, .THR, .ONE_D_PID]

/-- The controller-creation dispatch of `MyAviary.__init__` (Base.py
lines 90-111): which controller instance is created (if any), and what
the error branch does.  For `CF2X` and `CF2P` the controller is
`DSLPIDControl(drone_model=DroneModel.CF2X)`; for `HB` it is
`SimplePIDControl(drone_model=DroneModel.HB)`; for any other
`drone_model` the code prints an error message and continues (no
`exit()` call), leaving `self.ctrl` unset. -/
def initCtrl (drone_model : DroneModelPy) (act : ActPy) : Option Ctrl × ErrorBehavior :=
  match act with
  | .known a =>
    if a ∈ ctrlActionTypes then
      match drone_model with
      | .known .CF2X => (some (.DSLPIDControl .CF2X), .noError)
      | .known .CF2P => (some (.DSLPIDControl .CF2X), .noError)
      | .known .HB => (some (.SimplePIDControl .HB), .noError)
      | .unknown => (none, .printsAndContinues)
    else (none, .noError)
  | .unknown => (none, .noError)

/-- The `ActionType.TUN` reflection check of `MyAviary.__init__`
(Base.py lines 132-134): if `act == ActionType.TUN` and the subclass
supplies no callable `_trajectoryTrackingRPMs`, the code prints an
error and calls `exit()`. -/
def tunCheck (act : ActPy) (hasTrajectoryTrackingRPMs : Bool) : ErrorBehavior :=
  if act = .known .TUN ∧ hasTrajectoryTrackingRPMs = false then .exits else .noError

/-- The action-vector width of each action type, from `_actionSpace`
(Base.py lines 199-208). -/
def actionSpaceSize : ActionType → Nat
  | .TUN => 6
  | .RPM => 4
  | .DYN => 4
  | .VEL => 4
  | .PID => 3
  | .ONE_D_RPM => 1
  | .ONE_D_DYN => 1
  | .ONE_D_PID => 1
  | .THR => 4

/-- `_actionSpace` (Base.py lines 192-216): a known action type yields a
Box of its width; anything else prints an error and calls `exit()`. -/
def actionSpace : ActPy → Option Nat × ErrorBehavior
  | .known a => (some (actionSpaceSize a), .noError)
  | .unknown => (none, .exits)

/-- The fall-through `else` of `_preprocessAction` (Base.py lines
326-327): an unsupported action type prints an error and continues,
implicitly returning `None`. -/
def preprocessActionBranch : ActPy → ErrorBehavior
  | .known _ => .noError
  | .unknown => .printsAndContinues

/-- The shape of an observation space: a flat Box of a given dimension,
or an image tensor. -/
inductive ObsSpace
  | box (dim : Nat)
  | image
deriving DecidableEq

/-- The lower bound declared by `_observationSpace` for
`ObservationType.KIN` (Base.py line 353). -/
def kinObsLowerBound : List Int :=
  [-1, -1, 0, -1, -1, -1, -1, -1, -1, -1, -1, -1]

/-- The upper bound declared by `_observationSpace` for
`ObservationType.KIN` (Base.py line 354). -/
def kinObsUpperBound : List Int :=
  [1, 1, 1, 1, 1, 1, 1, 1, 1, 1, 1, 1]

/-- The dimension of the observation space declared by
`_observationSpace` for `ObservationType.KIN`: the length of its bound
arrays. -/
def kinObsSpaceDim : Nat := kinObsLowerBound.length

/-- `_observationSpace` (Base.py lines 331-359): RGB yields an image
Box, KIN yields a flat Box whose shape is given by the 12-element bound
arrays, and anything else prints an error and continues, implicitly
returning `None`. -/
def observationSpace : ObsPy → Option ObsSpace × ErrorBehavior
  | .known .RGB => (some .image, .noError)
  | .known .KIN => (some (.box kinObsSpaceDim), .noError)
  | .unknown => (none, .printsAndContinues)

/-- The raw drone state supplied by the physics engine each tick,
`self._getDroneStateVector(0)`: a 20-entry vector sliced by the code as
position `[0:3]`, quaternion `[3:7]`, Euler angles `[7:10]`, linear
velocity `[10:13]`, angular velocity `[13:16]`, last motor RPMs `[16:20]`. -/
structure DroneState where
  pos : Fin 3 → ℝ
  quat : Fin 4 → ℝ
  rpy : Fin 3 → ℝ
  vel : Fin 3 → ℝ
  angVel : Fin 3 → ℝ
  lastRPM : Fin 4 → ℝ

noncomputable section

/-- Euclidean norm of a 3-vector, `np.linalg.norm` on a length-3 array. -/
def norm3 (v : Fin 3 → ℝ) : ℝ :=
  Real.sqrt (v 0 ^ 2 + v 1 ^ 2 + v 2 ^ 2)

/-- Euclidean norm of a 4-vector, `np.linalg.norm` on a length-4 array. -/
def norm4 (v : Fin 4 → ℝ) : ℝ :=
  Real.sqrt (v 0 ^ 2 + v 1 ^ 2 + v 2 ^ 2 + v 3 ^ 2)

/-- The KIN branch of `_computeObs` (Base.py lines 384-392):
`np.hstack([diff, obs[10:13], obs[13:16], Rotation_matrix]).reshape(18,)`
where `diff = self.target_position - obs[0:3]` and `Rotation_matrix` is
`p.getMatrixFromQuaternion(p.getQuaternionFromEuler(obs[7:10]))` — the
row-major rotation matrix the external pybullet collaborator derives
from the Euler orientation, taken here as the parameter
`rotMatrixOfEuler`. -/
def computeObsKIN (rotMatrixOfEuler : (Fin 3 → ℝ) → Fin 9 → ℝ)
    (target_position : Fin 3 → ℝ) (s : DroneState) : List ℝ :=
  let diff : Fin 3 → ℝ := fun i => target_position i - s.pos i
  let R : Fin 9 → ℝ := rotMatrixOfEuler s.rpy
  [diff 0, diff 1, diff 2,
   s.vel 0, s.vel 1, s.vel 2,
   s.angVel 0, s.angVel 1, s.angVel 2,
   R 0, R 1, R 2, R 3, R 4, R 5, R 6, R 7, R 8]

/-- `_invProcessAction` (Base.py lines 435-436):
`((action/self.HOVER_RPM) - 1.0) * 20.0`, applied elementwise to the
4-vector of last motor RPMs. -/
def invProcessAction (HOVER_RPM : ℝ) (action : Fin 4 → ℝ) : Fin 4 → ℝ :=
  fun i => (action i / HOVER_RPM - 1.0) * 20.0

/-- `_computeReward` (Base.py lines 399-432).  Inputs: the hover-RPM
constant, `AGGR_PHY_STEPS` (physics steps per call), the stored target
position, the stored `self.prev_action` (`none` when unset), and the
current drone state.  Returns the reward together with the updated
`self.prev_action` (the code overwrites it with the current processed
action in both branches). -/
def computeReward (HOVER_RPM AGGR_PHY_STEPS : ℝ)
    (target_position : Fin 3 → ℝ) (prev_action : Option (Fin 4 → ℝ))
    (s : DroneState) : ℝ × (Fin 4 → ℝ) :=
  let pos := s.pos
  let att := s.rpy
  let vel := s.vel
  let ang_vel := s.angVel
  let action := invProcessAction HOVER_RPM s.lastRPM
  let daVec : Fin 4 → ℝ :=
    match prev_action with
    | some prev => fun i => (action i - prev i) / AGGR_PHY_STEPS
    | none => fun i => action i / AGGR_PHY_STEPS
  let da := norm4 daVec
  let pos_err := norm3 (fun i => pos i - target_position i)
  let att_err := norm3 att
  let vel_err := norm3 vel
  let _ang_vel_err := norm3 ang_vel
  let act_err := norm4 action
  (2.0 - 1.0 * pos_err - 0.04 * vel_err - 0.02 * att_err - 0.02 * act_err - 0.001 * da,
   action)

/-- `_computeDone` (Base.py lines 438-461): done when some position
coordinate has absolute value above 3, or the absolute value of the
altitude is below 0.02, or some Euler angle has absolute value above
π/2 (the episode-length branch is commented out in the source). -/
def computeDone (s : DroneState) : Bool :=
  if |s.pos 0| > 3 ∨ |s.pos 1| > 3 ∨ |s.pos 2| > 3 ∨ |s.pos 2| < 0.02 then
    true
  else if |s.rpy 0| > Real.pi / 2 ∨ |s.rpy 1| > Real.pi / 2 ∨ |s.rpy 2| > Real.pi / 2 then
    true
  else
    false

/-- The target-velocity argument the VEL branch of `_preprocessAction`
(Base.py lines 284-299) passes to `self.ctrl.computeControl`:
`self.SPEED_LIMIT * np.abs(action[3]) * v_unit_vector`, where
`v_unit_vector` is `action[0:3]` normalised when its norm is nonzero
and `np.zeros(3)` otherwise. -/
def velTargetVel (SPEED_LIMIT : ℝ) (action : Fin 4 → ℝ) : Fin 3 → ℝ :=
  let a03 : Fin 3 → ℝ := fun i => action i.castSucc
  let v_unit_vector : Fin 3 → ℝ :=
    if norm3 a03 ≠ 0 then fun i => a03 i / norm3 a03 else fun _ => 0
  fun i => SPEED_LIMIT * |action 3| * v_unit_vector i

/-- The RPM branch of `_preprocessAction` (Base.py lines 247-248):
`np.array(self.HOVER_RPM * (1+0.05*action))` for a length-4 action. -/
def rpmDecode (HOVER_RPM : ℝ) (action : Fin 4 → ℝ) : Fin 4 → ℝ :=
  fun i => HOVER_RPM * (1 + 0.05 * action i)

/-- The ONE_D_RPM branch of `_preprocessAction` (Base.py lines 300-301):
`np.repeat(self.HOVER_RPM * (1+0.05*action), 4)` for a length-1 action. -/
def oneDRpmDecode (HOVER_RPM : ℝ) (action : Fin 1 → ℝ) : Fin 4 → ℝ :=
  fun _ => HOVER_RPM * (1 + 0.05 * action 0)

/-- The slice of pybullet world state relevant to `_addTarget`: the id
the next `p.loadURDF` call will return, and the loaded bodies with
their base positions.  The aviary loads the ground plane and the drone
before any target marker, so `nextId` starts at 2 in practice. -/
structure World where
  nextId : Nat
  bodies : List (Nat × (Fin 3 → ℝ))

/-- The mutable environment attributes touched by `_addTarget` and
`_computeReward`: the stored target, `self.prev_action` (read and
written by `_computeReward`), `self.prev_` (written by `_addTarget`,
never read anywhere), and the cached marker body id `self.target_ID`
(`None` until a marker is created). -/
structure EnvState where
  target_position : Fin 3 → ℝ
  prev_action : Option (Fin 4 → ℝ)
  prev_ : Option (Fin 4 → ℝ)
  target_ID : Option Nat

/-- `p.loadURDF`: creates a body at the given position and returns its id. -/
def loadURDF (position : Fin 3 → ℝ) (w : World) : Nat × World :=
  (w.nextId, ⟨w.nextId + 1, w.bodies ++ [(w.nextId, position)]⟩)

/-- `p.resetBasePositionAndOrientation`: moves an existing body. -/
def resetBasePosition (bodyId : Nat) (position : Fin 3 → ℝ) (w : World) : World :=
  ⟨w.nextId, w.bodies.map fun b => if b.1 = bodyId then (b.1, position) else b⟩

/-- `_addTarget` (Base.py lines 171-187): stores the position as the
active target, sets `self.prev_ = None`, and when `visual` is true
either loads the marker URDF (when `not self.target_ID` — Python
truthiness, so also when the cached id is the integer 0) or repositions
the cached marker body. -/
def addTarget (position : Fin 3 → ℝ) (visual : Bool)
    (env : EnvState) (w : World) : EnvState × World :=
  let env := { env with target_position := position, prev_ := none }
  if visual then
    match env.target_ID with
    | none =>
      let (bodyId, w) := loadURDF position w
      ({ env with target_ID := some bodyId }, w)
    | some cachedId =>
      if cachedId = 0 then
        let (bodyId, w) := loadURDF position w
        ({ env with target_ID := some bodyId }, w)
      else
        (env, resetBasePosition cachedId position w)
  else
    (env, w)

/-- Modelled from the spec (section 4.3):
`action_phys = (last_motor_rpm / hover_rpm − 1) * 20`. -/
def specActionPhys (hover_rpm : ℝ) (last_motor_rpm : Fin 4 → ℝ) : Fin 4 → ℝ :=
  fun i => (last_motor_rpm i / hover_rpm - 1) * 20

/-- Modelled from the spec (section 4.3):
`da = (action_phys − previous_action_phys) / steps_per_call`. -/
def specDa (steps_per_call : ℝ) (action_phys previous_action_phys : Fin 4 → ℝ) : Fin 4 → ℝ :=
  fun i => (action_phys i - previous_action_phys i) / steps_per_call

/-- Modelled from the spec (section 4.3): `reward = 2.0 − 1.0*‖pos−target‖
− 0.04*‖vel‖ − 0.02*‖euler‖ − 0.02*‖action_phys‖ − 0.001*‖da‖`. -/
def specReward (pos target vel euler : Fin 3 → ℝ) (action_phys da : Fin 4 → ℝ) : ℝ :=
  2.0 - 1.0 * norm3 (fun i => pos i - target i) - 0.04 * norm3 vel - 0.02 * norm3 euler
    - 0.02 * norm4 action_phys - 0.001 * norm4 da

/-- The termination condition exactly as claim C3 words it: some position
component exceeds 3 in magnitude, or the altitude is below 0.02, or some
Euler angle exceeds π/2 in magnitude. -/
def specDoneClaim (s : DroneState) : Prop :=
  (|s.pos 0| > 3 ∨ |s.pos 1| > 3 ∨ |s.pos 2| > 3) ∨ s.pos 2 < 0.02 ∨
    (|s.rpy 0| > Real.pi / 2 ∨ |s.rpy 1| > Real.pi / 2 ∨ |s.rpy 2| > Real.pi / 2)

/-- Helper: the Euclidean norm of the zero 3-vector is zero. -/
theorem norm3_const_zero : norm3 (fun _ => (0 : ℝ)) = 0 := by
  simp [norm3]

/-- Helper: the Euclidean norm of the zero 4-vector is zero. -/
theorem norm4_const_zero : norm4 (fun _ => (0 : ℝ)) = 0 := by
  simp [norm4]

/-- Helper: unfolding equation for `_computeReward` when `self.prev_action`
holds a previously stored action. -/
theorem computeReward_some_val (H A : ℝ) (t : Fin 3 → ℝ) (p : Fin 4 → ℝ) (s : DroneState) :
    (computeReward H A t (some p) s).1 =
      2.0 - 1.0 * norm3 (fun i => s.pos i - t i) - 0.04 * norm3 s.vel - 0.02 * norm3 s.rpy
        - 0.02 * norm4 (invProcessAction H s.lastRPM)
        - 0.001 * norm4 (fun i => (invProcessAction H s.lastRPM i - p i) / A) := rfl

/-- Helper: unfolding equation for `_computeReward` on the first call
(`self.prev_action is None`), where the code divides the current
processed action itself by `AGGR_PHY_STEPS`. -/
theorem computeReward_none_val (H A : ℝ) (t : Fin 3 → ℝ) (s : DroneState) :
    (computeReward H A t none s).1 =
      2.0 - 1.0 * norm3 (fun i => s.pos i - t i) - 0.04 * norm3 s.vel - 0.02 * norm3 s.rpy
        - 0.02 * norm4 (invProcessAction H s.lastRPM)
        - 0.001 * norm4 (fun i => invProcessAction H s.lastRPM i / A) := rfl

/-- Helper: the code's `_invProcessAction` computes the spec's
`action_phys` (the literals `1.0` and `20.0` versus `1` and `20`). -/
theorem invProcessAction_eq_specActionPhys (H : ℝ) (v : Fin 4 → ℝ) :
    invProcessAction H v = specActionPhys H v := by
  funext i
  simp only [invProcessAction, specActionPhys]
  norm_num

/-- Helper: characterization of `_computeDone` as a disjunction. -/
theorem computeDone_eq_true_iff (s : DroneState) :
    computeDone s = true ↔
      (|s.pos 0| > 3 ∨ |s.pos 1| > 3 ∨ |s.pos 2| > 3 ∨ |s.pos 2| < 0.02) ∨
        (|s.rpy 0| > Real.pi / 2 ∨ |s.rpy 1| > Real.pi / 2 ∨ |s.rpy 2| > Real.pi / 2) := by
  unfold computeDone
  split_ifs with h1 h2
  · simp [h1]
  · simp [h1, h2]
  · simp [h1, h2]

end

/-- Claim C1: for every drone state, the KIN observation produced by
`_computeObs` has exactly the shape declared by `_observationSpace` for
`ObservationType.KIN`.  The code violates this: the observation has 18
elements while the declared Box has dimension 12. -/
theorem c1_obs_shape_mismatch (rot : (Fin 3 → ℝ) → Fin 9 → ℝ)
    (target : Fin 3 → ℝ) (s : DroneState) :
    (computeObsKIN rot target s).length = 18 ∧
      observationSpace (.known .KIN) = (some (.box 12), .noError) ∧
      (computeObsKIN rot target s).length ≠ kinObsSpaceDim := by
  have h18 : (computeObsKIN rot target s).length = 18 := rfl
  refine ⟨h18, rfl, ?_⟩
  rw [h18]
  decide

/-- Claim C2: with a previously stored action, `_computeReward` returns
exactly `2.0 − 1.0*‖pos−target‖ − 0.04*‖vel‖ − 0.02*‖euler‖ −
0.02*‖action_phys‖ − 0.001*‖da‖` with `action_phys =
(last_motor_rpm/hover_rpm − 1)*20` and `da = (action_phys −
previous_action_phys)/steps_per_call`; in particular at the target with
zero velocity, zero Euler angles, motors at hover RPM and a zero stored
previous action, the reward is exactly 2.0. -/
theorem c2_reward_formula (HOVER_RPM AGGR_PHY_STEPS : ℝ) (target : Fin 3 → ℝ)
    (p : Fin 4 → ℝ) (s : DroneState) :
    (computeReward HOVER_RPM AGGR_PHY_STEPS target (some p) s).1 =
      specReward s.pos target s.vel s.rpy (specActionPhys HOVER_RPM s.lastRPM)
        (specDa AGGR_PHY_STEPS (specActionPhys HOVER_RPM s.lastRPM) p) ∧
    (HOVER_RPM ≠ 0 → s.pos = target → s.vel = 0 → s.rpy = 0 →
      s.lastRPM = (fun _ => HOVER_RPM) → p = 0 →
      (computeReward HOVER_RPM AGGR_PHY_STEPS target (some p) s).1 = 2.0) := by
  have hformula : (computeReward HOVER_RPM AGGR_PHY_STEPS target (some p) s).1 =
      specReward s.pos target s.vel s.rpy (specActionPhys HOVER_RPM s.lastRPM)
        (specDa AGGR_PHY_STEPS (specActionPhys HOVER_RPM s.lastRPM) p) := by
    rw [computeReward_some_val, invProcessAction_eq_specActionPhys]
    rfl
  refine ⟨hformula, ?_⟩
  intro hH hpos hvel hrpy hrpm hp
  have hphys : specActionPhys HOVER_RPM s.lastRPM = (fun _ => 0) := by
    funext i
    simp [specActionPhys, hrpm, div_self hH]
  have hdiff : (fun i => s.pos i - target i) = (fun _ => (0 : ℝ)) := by
    funext i
    simp [hpos]
  have hda : specDa AGGR_PHY_STEPS (specActionPhys HOVER_RPM s.lastRPM) p
      = (fun _ => (0 : ℝ)) := by
    funext i
    simp [specDa, hphys, hp]
  rw [hformula]
  rw [specReward, hdiff, hda, hphys, hvel, hrpy]
  have hv0 : norm3 (0 : Fin 3 → ℝ) = 0 := norm3_const_zero
  rw [norm3_const_zero, norm4_const_zero, hv0]
  norm_num

/-- Claim C2 witness: a hovering drone at the target with a zero stored
previous action receives reward exactly 2.0. -/
theorem c2_reward_formula_witness :
    (computeReward 1 1 (fun _ => 0) (some 0)
        ⟨fun _ => 0, fun _ => 0, fun _ => 0, fun _ => 0, fun _ => 0, fun _ => 1⟩).1 = 2.0 :=
  (c2_reward_formula 1 1 (fun _ => 0) 0
      ⟨fun _ => 0, fun _ => 0, fun _ => 0, fun _ => 0, fun _ => 0, fun _ => 1⟩).2
    one_ne_zero rfl rfl rfl rfl rfl

/-- Claim C3 counterexample: at position `(-1, -1, -1)` with level
attitude, `_computeDone` returns `false`, yet the claim's condition holds
(the altitude `-1` is below `0.02`), so the stated equivalence fails:
the code tests `|z| < 0.02`, not `z < 0.02`. -/
theorem c3_counterexample :
    computeDone ⟨fun _ => -1, fun _ => 0, fun _ => 0, fun _ => 0, fun _ => 0, fun _ => 0⟩
        = false ∧
      specDoneClaim ⟨fun _ => -1, fun _ => 0, fun _ => 0, fun _ => 0, fun _ => 0, fun _ => 0⟩ := by
  constructor
  · rw [Bool.eq_false_iff, Ne, computeDone_eq_true_iff]
    push_neg
    refine ⟨⟨?_, ?_, ?_, ?_⟩, ?_, ?_, ?_⟩
    · show |(-1 : ℝ)| ≤ 3
      norm_num
    · show |(-1 : ℝ)| ≤ 3
      norm_num
    · show |(-1 : ℝ)| ≤ 3
      norm_num
    · show (0.02 : ℝ) ≤ |(-1 : ℝ)|
      norm_num
    · show |(0 : ℝ)| ≤ Real.pi / 2
      rw [abs_zero]
      positivity
    · show |(0 : ℝ)| ≤ Real.pi / 2
      rw [abs_zero]
      positivity
    · show |(0 : ℝ)| ≤ Real.pi / 2
      rw [abs_zero]
      positivity
  · refine Or.inr (Or.inl ?_)
    show (-1 : ℝ) < 0.02
    norm_num

/-- Claim C3 amended: `_computeDone` returns true iff some position
component exceeds 3 in magnitude, or the magnitude of the altitude is
below 0.02, or some Euler angle exceeds π/2 in magnitude; the comparison
against 3 is strict, so a position component exactly equal to 3.0 yields
false and 3.0001 yields true. -/
theorem c3_done_characterization :
    (∀ s : DroneState, computeDone s = true ↔
      ((|s.pos 0| > 3 ∨ |s.pos 1| > 3 ∨ |s.pos 2| > 3) ∨ |s.pos 2| < 0.02 ∨
        (|s.rpy 0| > Real.pi / 2 ∨ |s.rpy 1| > Real.pi / 2 ∨ |s.rpy 2| > Real.pi / 2))) ∧
    computeDone ⟨fun _ => 3, fun _ => 0, fun _ => 0, fun _ => 0, fun _ => 0, fun _ => 0⟩
        = false ∧
    computeDone ⟨fun _ => 3.0001, fun _ => 0, fun _ => 0, fun _ => 0, fun _ => 0, fun _ => 0⟩
        = true := by
  refine ⟨?_, ?_, ?_⟩
  · intro s
    rw [computeDone_eq_true_iff]
    tauto
  · rw [Bool.eq_false_iff, Ne, computeDone_eq_true_iff]
    push_neg
    refine ⟨⟨?_, ?_, ?_, ?_⟩, ?_, ?_, ?_⟩
    · show |(3 : ℝ)| ≤ 3
      norm_num
    · show |(3 : ℝ)| ≤ 3
      norm_num
    · show |(3 : ℝ)| ≤ 3
      norm_num
    · show (0.02 : ℝ) ≤ |(3 : ℝ)|
      norm_num
    · show |(0 : ℝ)| ≤ Real.pi / 2
      rw [abs_zero]
      positivity
    · show |(0 : ℝ)| ≤ Real.pi / 2
      rw [abs_zero]
      positivity
    · show |(0 : ℝ)| ≤ Real.pi / 2
      rw [abs_zero]
      positivity
  · rw [computeDone_eq_true_iff]
    refine Or.inl (Or.inl ?_)
    show |(3.0001 : ℝ)| > 3
    rw [abs_of_pos (show (0 : ℝ) < 3.0001 by norm_num)]
    norm_num

/-- Claim C4 counterexample: on the first call after construction (with
`self.prev_action` unset), the reward the code computes for a drone at
the target with all motors at twice the hover RPM differs from the
reward computed with `previous_action_phys = action_phys` (the claim's
reading, under which the `da` term would contribute zero): the code
yields `1.16`, the claim's reading `1.2`. -/
theorem c4_counterexample :
    (computeReward 1 1 (fun _ => 0) none
        ⟨fun _ => 0, fun _ => 0, fun _ => 0, fun _ => 0, fun _ => 0, fun _ => 2⟩).1 ≠
      (computeReward 1 1 (fun _ => 0) (some (invProcessAction 1 (fun _ => 2)))
        ⟨fun _ => 0, fun _ => 0, fun _ => 0, fun _ => 0, fun _ => 0, fun _ => 2⟩).1 := by
  have h1600 : Real.sqrt 1600 = 40 := by
    rw [show (1600 : ℝ) = 40 ^ 2 by norm_num]
    exact Real.sqrt_sq (by norm_num)
  norm_num [computeReward_none_val, computeReward_some_val, invProcessAction,
    norm3, norm4, h1600]

/-- Claim C4 amended: on the first call to `_computeReward` (with the
previous-action state unset), `previous_action_phys` is taken to equal
zero, so the action-derivative term is `da = action_phys /
steps_per_call`; it vanishes only when `action_phys` does. -/
theorem c4_first_call_da (HOVER_RPM AGGR_PHY_STEPS : ℝ) (target : Fin 3 → ℝ)
    (s : DroneState) :
    (computeReward HOVER_RPM AGGR_PHY_STEPS target none s).1 =
      specReward s.pos target s.vel s.rpy (specActionPhys HOVER_RPM s.lastRPM)
        (specDa AGGR_PHY_STEPS (specActionPhys HOVER_RPM s.lastRPM) 0) := by
  rw [computeReward_none_val, invProcessAction_eq_specActionPhys]
  have hda : specDa AGGR_PHY_STEPS (specActionPhys HOVER_RPM s.lastRPM) 0
      = fun i => specActionPhys HOVER_RPM s.lastRPM i / AGGR_PHY_STEPS := by
    funext i
    simp [specDa]
  rw [specReward, hda]

/-- Claim C5: `_addTarget` stores the new target, and with `visual=True`
the first call creates exactly one marker body while the second call
repositions that same body (identity unchanged); but the code does NOT
reset the previous-action state read by `_computeReward`: it assigns
`None` to the unused attribute `self.prev_`, leaving `self.prev_action`
untouched. -/
theorem c5_addTarget_behavior :
    ((addTarget (fun _ => 1) true
        ⟨fun _ => 0, some (fun _ => 5), some (fun _ => 7), none⟩ ⟨2, []⟩).1.target_position
        = fun _ => 1) ∧
    ((addTarget (fun _ => 1) true
        ⟨fun _ => 0, some (fun _ => 5), some (fun _ => 7), none⟩ ⟨2, []⟩).1.prev_action
        = some (fun _ => 5)) ∧
    ((addTarget (fun _ => 1) true
        ⟨fun _ => 0, some (fun _ => 5), some (fun _ => 7), none⟩ ⟨2, []⟩).1.target_ID
        = some 2) ∧
    ((addTarget (fun _ => 1) true
        ⟨fun _ => 0, some (fun _ => 5), some (fun _ => 7), none⟩ ⟨2, []⟩).2.bodies
        = [(2, fun _ => 1)]) ∧
    ((addTarget (fun _ => 4) true
        (addTarget (fun _ => 1) true
          ⟨fun _ => 0, some (fun _ => 5), some (fun _ => 7), none⟩ ⟨2, []⟩).1
        (addTarget (fun _ => 1) true
          ⟨fun _ => 0, some (fun _ => 5), some (fun _ => 7), none⟩ ⟨2, []⟩).2).1.target_ID
        = some 2) ∧
    ((addTarget (fun _ => 4) true
        (addTarget (fun _ => 1) true
          ⟨fun _ => 0, some (fun _ => 5), some (fun _ => 7), none⟩ ⟨2, []⟩).1
        (addTarget (fun _ => 1) true
          ⟨fun _ => 0, some (fun _ => 5), some (fun _ => 7), none⟩ ⟨2, []⟩).2).2.bodies
        = [(2, fun _ => 4)]) ∧
    ((addTarget (fun _ => 4) true
        (addTarget (fun _ => 1) true
          ⟨fun _ => 0, some (fun _ => 5), some (fun _ => 7), none⟩ ⟨2, []⟩).1
        (addTarget (fun _ => 1) true
          ⟨fun _ => 0, some (fun _ => 5), some (fun _ => 7), none⟩ ⟨2, []⟩).2).1.prev_action
        = some (fun _ => 5)) :=
  ⟨rfl, rfl, rfl, rfl, rfl, rfl, rfl⟩

/-- Claim C6 counterexample: constructing the environment with a
controller-requiring action type and an unsupported drone model only
prints an error message and continues the construction — it does not
terminate the process. -/
theorem c6_counterexample :
    (initCtrl .unknown (.known .PID)).2 = .printsAndContinues ∧
      ErrorBehavior.printsAndContinues ≠ ErrorBehavior.exits := by
  decide

/-- Claim C6 amended: `ActionType.TUN` without a subclass
`_trajectoryTrackingRPMs` implementation terminates construction via
`exit()`, and an unsupported action type in `_actionSpace` terminates
via `exit()`; but an unsupported drone model in `__init__` and an
unsupported action/observation type in `_preprocessAction` or
`_observationSpace` only print an error and continue, producing no
usable value (the controller attribute stays unset, the functions
return `None`). -/
theorem c6_error_behaviors :
    tunCheck (.known .TUN) false = .exits ∧
    tunCheck (.known .TUN) true = .noError ∧
    actionSpace .unknown = (none, .exits) ∧
    initCtrl .unknown (.known .PID) = (none, .printsAndContinues) ∧
    preprocessActionBranch .unknown = .printsAndContinues ∧
    observationSpace .unknown = (none, .printsAndContinues) := by
  decide

/-- Claim C7: under `ObservationType.KIN`, `_computeObs` returns the
18-element concatenation of `target − position` (3 elements), linear
velocity (3), angular velocity (3) and the 9 row-major rotation-matrix
entries derived from the current orientation; in particular its first 3
elements equal `target − position` exactly. -/
theorem c7_kin_observation (rot : (Fin 3 → ℝ) → Fin 9 → ℝ)
    (target : Fin 3 → ℝ) (s : DroneState) :
    computeObsKIN rot target s =
        [target 0 - s.pos 0, target 1 - s.pos 1, target 2 - s.pos 2] ++
          [s.vel 0, s.vel 1, s.vel 2] ++ [s.angVel 0, s.angVel 1, s.angVel 2] ++
          [rot s.rpy 0, rot s.rpy 1, rot s.rpy 2, rot s.rpy 3, rot s.rpy 4,
            rot s.rpy 5, rot s.rpy 6, rot s.rpy 7, rot s.rpy 8] ∧
      (computeObsKIN rot target s).length = 18 ∧
      (computeObsKIN rot target s).take 3 =
        [target 0 - s.pos 0, target 1 - s.pos 1, target 2 - s.pos 2] :=
  ⟨rfl, rfl, rfl⟩

/-- Claim C8: in the `ActionType.VEL` decoding, an action whose first
three components have zero norm yields the zero target-velocity vector —
the code special-cases the zero norm instead of dividing by it. -/
theorem c8_vel_zero_norm (SPEED_LIMIT : ℝ) (action : Fin 4 → ℝ)
    (h : norm3 (fun i => action i.castSucc) = 0) :
    velTargetVel SPEED_LIMIT action = (fun _ => 0) ∧
      norm3 (velTargetVel SPEED_LIMIT action) = 0 := by
  have hv : velTargetVel SPEED_LIMIT action = fun _ => 0 := by
    funext i
    simp [velTargetVel, h]
  exact ⟨hv, by rw [hv]; exact norm3_const_zero⟩

/-- Claim C8 witness: the action `[0, 0, 0, 5]` yields the zero
target-velocity vector. -/
theorem c8_vel_zero_norm_witness :
    norm3 (fun i : Fin 3 =>
        (fun j : Fin 4 => if j.val < 3 then (0 : ℝ) else 5) i.castSucc) = 0 ∧
      velTargetVel 1 (fun j : Fin 4 => if j.val < 3 then (0 : ℝ) else 5)
        = fun _ => 0 := by
  have e0 : (fun i : Fin 3 =>
      (fun j : Fin 4 => if j.val < 3 then (0 : ℝ) else 5) i.castSucc) = fun _ => (0 : ℝ) := by
    funext i
    have hlt : (Fin.castSucc i).val < 3 := by
      simp only [Fin.coe_castSucc]
      exact i.isLt
    simp [hlt]
  have h : norm3 (fun i : Fin 3 =>
      (fun j : Fin 4 => if j.val < 3 then (0 : ℝ) else 5) i.castSucc) = 0 := by
    rw [e0]
    exact norm3_const_zero
  exact ⟨h, (c8_vel_zero_norm 1 (fun j : Fin 4 => if j.val < 3 then (0 : ℝ) else 5) h).1⟩

/-- Claim C9: for any scalar `a` in `[-1, 1]`, decoding `[a]` under
`ONE_D_RPM` equals decoding `[a, a, a, a]` under `RPM`, each motor
commanded `hover_rpm * (1 + 0.05*a)`; decoding zeros under either gives
exactly `[hover_rpm] * 4`. -/
theorem c9_one_d_rpm_matches_rpm (HOVER_RPM a : ℝ) (h : -1 ≤ a ∧ a ≤ 1) :
    oneDRpmDecode HOVER_RPM (fun _ => a) = rpmDecode HOVER_RPM (fun _ => a) ∧
      (∀ i, oneDRpmDecode HOVER_RPM (fun _ => a) i = HOVER_RPM * (1 + 0.05 * a)) ∧
      rpmDecode HOVER_RPM (fun _ => 0) = (fun _ => HOVER_RPM) ∧
      oneDRpmDecode HOVER_RPM (fun _ => 0) = (fun _ => HOVER_RPM) := by
  refine ⟨rfl, fun i => rfl, ?_, ?_⟩
  · funext i
    simp [rpmDecode]
  · funext i
    simp [oneDRpmDecode]

/-- Claim C9 witness: at `a = 1/2` with hover RPM 100, the two decodings
agree. -/
theorem c9_one_d_rpm_matches_rpm_witness :
    (-1 ≤ (1/2 : ℝ) ∧ (1/2 : ℝ) ≤ 1) ∧
      oneDRpmDecode 100 (fun _ => (1/2 : ℝ)) = rpmDecode 100 (fun _ => (1/2 : ℝ)) := by
  have h : -1 ≤ (1/2 : ℝ) ∧ (1/2 : ℝ) ≤ 1 := by
    constructor <;> norm_num
  exact ⟨h, (c9_one_d_rpm_matches_rpm 100 (1/2) h).1⟩

/-- Claim C10: for drone model `CF2P` and any controller-requiring action
type, the controller created is a `DSLPIDControl` constructed with
`drone_model = CF2X`, which is a different model than `CF2P`. -/
theorem c10_cf2p_gets_cf2x_controller (a : ActionType) (h : a ∈ ctrlActionTypes) :
    (initCtrl (.known .CF2P) (.known a)).1 = some (.DSLPIDControl .CF2X) ∧
      DroneModel.CF2X ≠ DroneModel.CF2P := by
  refine ⟨?_, by decide⟩
  fin_cases h <;> rfl

/-- Claim C10 witness: with `ActionType.PID`, a `CF2P` environment gets a
`DSLPIDControl` for `CF2X`. -/
theorem c10_cf2p_gets_cf2x_controller_witness :
    ActionType.PID ∈ ctrlActionTypes ∧
      (initCtrl (.known .CF2P) (.known .PID)).1 = some (.DSLPIDControl .CF2X) := by
  have h : ActionType.PID ∈ ctrlActionTypes := by decide
  exact ⟨h, (c10_cf2p_gets_cf2x_controller .PID h).1⟩

end LearningToFly
